import Mathlib

/-!
Shallow embedding of the core of `src/App.jsx` (citizen-politician-app):
the issue/comment data model, the mutation operations (`addIssue`,
`addComment`, `postUpdate`, `changeStatus`, `deleteIssue`), the UI-side
guards that wrap them, the selection-reconciliation effect, the
recent-updates feed, and the localStorage persistence layer.

Host inputs (the clock `Date.now()` and `new Date().toLocaleString()`)
are passed as explicit arguments (`now : Nat`, locale strings).
JSON.stringify / JSON.parse are modelled at the JSON-value level: the
persisted slot is quotiented by what the load effect observes of it
(absent, present but unparseable, or a parsed JSON document).
-/

/-- A comment record, as built at App.jsx line 55: fields id, role, text, at. -/
structure Comment where
  id : String
  role : String
  text : String
  «at» : String
deriving DecidableEq

/-- An issue record, as built at App.jsx lines 37-46 and 68-77. -/
structure Issue where
  id : String
  title : String
  description : String
  category : String
  status : String
  comments : List Comment
  createdAt : String
  reporterRole : String
deriving DecidableEq

/-- The App component state relevant to the core: role, issues, filter,
selected, modalMessage (App.jsx lines 7-11). -/
structure AppState where
  role : String
  issues : List Issue
  filter : String
  selected : Option Issue
  modalMessage : Option String
deriving DecidableEq

/-- App.jsx lines 36-48: `addIssue` builds a new issue
(id = Date.now().toString(), status "Open", comments [],
createdAt = new Date().toLocaleString(), reporterRole = current role)
and prepends it. `now` is the Date.now() value, `createdAt` the locale
string, both host inputs. -/
def addIssue (role : String) (now : Nat) (createdAt : String)
    (title description category : String) (prev : List Issue) : List Issue :=
  { id := toString now, title := title, description := description,
    category := category, status := "Open", comments := [],
    createdAt := createdAt, reporterRole := role } :: prev

/-- App.jsx lines 50-64: `addComment` maps over the collection and, on the
issue whose id matches, appends a new comment record; all other issues are
returned unchanged. -/
def addComment (role : String) (now : Nat) (atStr : String)
    (issueId text : String) (prev : List Issue) : List Issue :=
  prev.map (fun it =>
    if it.id == issueId then
      { it with comments := it.comments ++
          [{ id := toString now, role := role, text := text, «at» := atStr }] }
    else it)

/-- App.jsx lines 66-79: `postUpdate` builds a broadcast issue
(status "Update", title synthesized from the category, category and title
falling back to "General" when the category is empty — the `||` default —
reporterRole forced to "Politician") and prepends it. -/
def postUpdate (now : Nat) (createdAt : String)
    (text category : String) (prev : List Issue) : List Issue :=
  { id := toString now,
    title := "Broadcast - " ++ (if category == "" then "General" else category),
    description := text,
    category := if category == "" then "General" else category,
    status := "Update", comments := [],
    createdAt := createdAt, reporterRole := "Politician" } :: prev

/-- App.jsx lines 81-83: `changeStatus` maps over the collection replacing
the status of the issue whose id matches; it performs no check on the
current status. -/
def changeStatus (issueId status : String) (prev : List Issue) : List Issue :=
  prev.map (fun it => if it.id == issueId then { it with status := status } else it)

/-- App.jsx line 87: the modal message set when a non-Admin requests a delete. -/
def deleteDenyMessage : String :=
  "Error: Only Admin users are authorized to delete reports."

/-- App.jsx lines 24-31 (the effect on issues changes): if a selected issue
is tracked, re-find it by id in the new collection; keep the latest
snapshot when found, clear the selection when not. -/
def reconcileSelected (issues : List Issue) (selected : Option Issue) : Option Issue :=
  match selected with
  | none => none
  | some sel =>
    match issues.find? (fun i => i.id == sel.id) with
    | some updatedSelected => some updatedSelected
    | none => none

/-- A setIssues call followed by the reconciliation effect of
App.jsx lines 20-32. -/
def applyIssues (f : List Issue → List Issue) (s : AppState) : AppState :=
  let issues := f s.issues
  { s with issues := issues, selected := reconcileSelected issues s.selected }

/-- App.jsx lines 85-92: `deleteIssue` sets the deny modal and leaves the
collection alone unless the current role is "Admin"; for Admin it filters
out the matching id and sets the selection to null (the subsequent
reconciliation effect keeps a null selection null). -/
def deleteIssue (issueId : String) (s : AppState) : AppState :=
  if !(s.role == "Admin") then
    { s with modalMessage := some deleteDenyMessage }
  else
    let issues := s.issues.filter (fun it => !(it.id == issueId))
    { s with issues := issues, selected := reconcileSelected issues none }

/-- `addIssue` at App level, followed by the reconciliation effect. -/
def appAddIssue (now : Nat) (createdAt : String)
    (title description category : String) (s : AppState) : AppState :=
  applyIssues (addIssue s.role now createdAt title description category) s

/-- `addComment` at App level, followed by the reconciliation effect. -/
def appAddComment (now : Nat) (atStr : String)
    (issueId text : String) (s : AppState) : AppState :=
  applyIssues (addComment s.role now atStr issueId text) s

/-- `changeStatus` at App level, followed by the reconciliation effect. -/
def appChangeStatus (issueId status : String) (s : AppState) : AppState :=
  applyIssues (changeStatus issueId status) s

/-- App.jsx line 390: roles allowed to act on status. -/
def isAuthorizedToAct (currentRole : String) : Bool :=
  currentRole == "Moderator" || currentRole == "Politician" || currentRole == "Admin"

/-- App.jsx lines 393-399: `handleStatusChange` in IssueDetail sets a modal
and does not mutate when the role is not authorized; otherwise it calls
`changeStatus`. -/
def handleStatusChange (issue : Issue) (status : String) (s : AppState) : AppState :=
  if !(isAuthorizedToAct s.role) then
    let msg := "Only Politician, Moderator, or Admin roles can change the status of a report. Current Role: " ++ s.role
    { s with modalMessage := some msg }
  else appChangeStatus issue.id status s

/-- App.jsx lines 410 and 444: the status-change buttons are rendered only
when the role is authorized and the issue is not a broadcast
(`isAuthorizedToAct && !isBroadcast`). -/
def statusButtonsRendered (currentRole : String) (issue : Issue) : Bool :=
  isAuthorizedToAct currentRole && !(issue.status == "Update")

/-- The status-change action as reachable from the IssueDetail UI: it can
only fire when the buttons are rendered (App.jsx lines 444-465). -/
def uiStatusChange (issue : Issue) (status : String) (s : AppState) : AppState :=
  if statusButtonsRendered s.role issue then handleStatusChange issue status s else s

/-- JavaScript String.prototype.trim: strip leading and trailing
whitespace. -/
def jsTrim (s : String) : String :=
  ⟨((s.data.dropWhile Char.isWhitespace).reverse.dropWhile Char.isWhitespace).reverse⟩

/-- App.jsx lines 356-363: IssueForm.submit returns without calling the
core when title or description is blank after trim; otherwise it submits
the trimmed fields. -/
def submitIssueForm (role : String) (now : Nat) (createdAt : String)
    (title description category : String) (issues : List Issue) : List Issue :=
  if jsTrim title == "" || jsTrim description == "" then issues
  else addIssue role now createdAt (jsTrim title) (jsTrim description) category issues

/-- App.jsx line 438: the comment form handler returns without calling the
core when the text is blank after trim. -/
def commentFormSubmit (role : String) (now : Nat) (atStr : String)
    (issue : Issue) (text : String) (issues : List Issue) : List Issue :=
  if jsTrim text == "" then issues
  else addComment role now atStr issue.id (jsTrim text) issues

/-- App.jsx lines 491-500: Broadcast.send returns (after a modal) for a
non-Politician role, returns silently when the message is blank after
trim, and otherwise posts the trimmed update. -/
def broadcastSend (currentRole : String) (now : Nat) (createdAt : String)
    (msg category : String) (issues : List Issue) : List Issue :=
  if !(currentRole == "Politician") then issues
  else if jsTrim msg == "" then issues
  else postUpdate now createdAt (jsTrim msg) category issues

/-- App.jsx line 225: the recent-updates feed
`issues.filter(i => i.status === 'Update' || i.status === 'Open').slice(0, 6)`,
with the literal 6 generalized to a `limit` parameter (the render site
instantiates limit = 6). -/
def recentFeed (issues : List Issue) (limit : Nat) : List Issue :=
  (issues.filter (fun i => i.status == "Update" || i.status == "Open")).take limit

/-! Persistence (App.jsx lines 14-23). JSON values carry the schema the
app serializes: strings, arrays, objects. -/

/-- JSON values as produced by JSON.stringify on the issue collection. -/
inductive Json where
  | str : String → Json
  | arr : List Json → Json
  | obj : List (String × Json) → Json

/-- JSON.stringify of a comment record at the value level. -/
def encodeComment (c : Comment) : Json :=
  .obj [("id", .str c.id), ("role", .str c.role),
        ("text", .str c.text), ("at", .str c.«at»)]

/-- JSON.stringify of an issue record at the value level. -/
def encodeIssue (i : Issue) : Json :=
  .obj [("id", .str i.id), ("title", .str i.title),
        ("description", .str i.description), ("category", .str i.category),
        ("status", .str i.status),
        ("comments", .arr (i.comments.map encodeComment)),
        ("createdAt", .str i.createdAt), ("reporterRole", .str i.reporterRole)]

/-- JSON.stringify of the whole collection at the value level. -/
def encodeIssues (l : List Issue) : Json :=
  .arr (l.map encodeIssue)

/-- JavaScript property access on a parsed JSON object. -/
def jsonLookup (j : Json) (k : String) : Option Json :=
  match j with
  | .obj fields => (fields.find? (fun p => p.fst == k)).map Prod.snd
  | _ => none

/-- Reading a string property of a parsed object (undefined or a
non-string defaults, modelling untyped JS access on well-formed data). -/
def asStr : Option Json → String
  | some (.str s) => s
  | _ => ""

/-- The parsed comment object as the app consumes it. -/
def decodeComment (j : Json) : Comment :=
  { id := asStr (jsonLookup j "id"), role := asStr (jsonLookup j "role"),
    text := asStr (jsonLookup j "text"), «at» := asStr (jsonLookup j "at") }

/-- The parsed issue object as the app consumes it. -/
def decodeIssue (j : Json) : Issue :=
  { id := asStr (jsonLookup j "id"), title := asStr (jsonLookup j "title"),
    description := asStr (jsonLookup j "description"),
    category := asStr (jsonLookup j "category"),
    status := asStr (jsonLookup j "status"),
    comments := (match jsonLookup j "comments" with
                 | some (Json.arr l) => l.map decodeComment
                 | _ => []),
    createdAt := asStr (jsonLookup j "createdAt"),
    reporterRole := asStr (jsonLookup j "reporterRole") }

/-- The parsed collection as the app consumes it. -/
def decodeIssues : Json → List Issue
  | .arr l => l.map decodeIssue
  | _ => []

/-- The persisted slot under key "fedf_issues_v1", quotiented by what the
load effect observes: absent (getItem null or empty, so `if (saved)` is
false), present but rejected by JSON.parse, or a parsed JSON document. -/
inductive Snapshot where
  | absent : Snapshot
  | corrupt : Snapshot
  | doc : Json → Snapshot

/-- App.jsx lines 14-18: the load effect. An absent slot leaves the state
at []; a parsed document is installed as the issue list; an unparseable
slot makes JSON.parse throw — there is no try/catch, so the exception
propagates (modelled as an error result). -/
def load : Snapshot → Except String (List Issue)
  | .absent => .ok []
  | .corrupt => .error "SyntaxError: Unexpected token in JSON"
  | .doc j => .ok (decodeIssues j)

/-- App.jsx lines 20-23: the save effect writes
JSON.stringify(issues) under the key; the written string parses back to
the encoded document. -/
def save (issues : List Issue) : Snapshot :=
  .doc (encodeIssues issues)

/-- Occurrence test helper: does the first list lead the second. -/
def listLeadsWith : List Char → List Char → Bool
  | [], _ => true
  | _ :: _, [] => false
  | a :: resta, b :: restb => a == b && listLeadsWith resta restb

/-- Occurrence test helper: does the first list occur in the second. -/
def listOccurs (t : List Char) : List Char → Bool
  | [] => listLeadsWith t []
  | b :: rest => listLeadsWith t (b :: rest) || listOccurs t rest

/-- Formalizes "the message names X": X occurs in the message. -/
def strMentions (msg pat : String) : Bool :=
  listOccurs pat.data msg.data

/-! Concrete sample data used by counterexamples and witnesses. -/

/-- A broadcast issue (status "Update"). -/
def bIssue : Issue :=
  { id := "1", title := "Broadcast - General", description := "Road closure",
    category := "General", status := "Update", comments := [],
    createdAt := "t0", reporterRole := "Politician" }

/-- An ordinary open issue with id "5". -/
def collide5 : Issue :=
  { id := "5", title := "Old report", description := "d",
    category := "General", status := "Open", comments := [],
    createdAt := "t0", reporterRole := "Citizen" }

/-- An open issue with id "1". -/
def issueA : Issue :=
  { id := "1", title := "Pothole", description := "Large pothole on 5th",
    category := "Roads", status := "Open", comments := [],
    createdAt := "t1", reporterRole := "Citizen" }

/-- An open issue with id "2". -/
def issueB : Issue :=
  { id := "2", title := "Streetlight", description := "Broken lamp",
    category := "Electricity", status := "Open", comments := [],
    createdAt := "t2", reporterRole := "Citizen" }

/-- An Admin session holding two issues with the first selected. -/
def adminTwoState : AppState :=
  { role := "Admin", issues := [issueA, issueB], filter := "all",
    selected := some issueA, modalMessage := none }

/-- A Citizen session holding one issue. -/
def citizenState : AppState :=
  { role := "Citizen", issues := [issueA], filter := "all",
    selected := none, modalMessage := none }

/-! Theorems. -/

/-- Round-trip helper: decoding an encoded comment is the identity. -/
theorem decodeComment_encodeComment (c : Comment) : decodeComment (encodeComment c) = c := rfl

/-- Round-trip helper: decoding an encoded issue is the identity. -/
theorem decodeIssue_encodeIssue (i : Issue) : decodeIssue (encodeIssue i) = i := by
  have h : (i.comments.map encodeComment).map decodeComment = i.comments := by
    rw [List.map_map]
    have hco : decodeComment ∘ encodeComment = id := funext fun c => decodeComment_encodeComment c
    rw [hco, List.map_id]
  have h2 : decodeIssue (encodeIssue i)
      = { i with comments := (i.comments.map encodeComment).map decodeComment } := rfl
  rw [h2, h]

/-- Claim C1 counterexample: the collection holding one broadcast issue
(status "Update") is changed by `changeStatus` — the new status is
installed, so the operation is not a no-op as the claim states. -/
theorem changeStatus_on_update_changes :
    changeStatus "1" "Resolved" [bIssue] ≠ [bIssue] ∧
    (changeStatus "1" "Resolved" [bIssue]).map Issue.status = ["Resolved"] := by
  decide

/-- Claim C1 (amended): the core `changeStatus` replaces the status of the
matching issue regardless of its current status; broadcast immutability is
enforced only at the UI layer, where IssueDetail renders no status-change
buttons for an issue with status "Update", so the UI-reachable status
action leaves the state unchanged on a broadcast. -/
theorem uiStatusChange_broadcast_noop (s : AppState) (issue : Issue) (status : String)
    (h : issue.status = "Update") : uiStatusChange issue status s = s := by
  unfold uiStatusChange statusButtonsRendered
  simp [h]

/-- Claim C1 witness: the UI status action on a concrete broadcast issue
leaves a concrete state unchanged. -/
theorem uiStatusChange_broadcast_noop_w :
    uiStatusChange bIssue "Resolved" adminTwoState = adminTwoState :=
  uiStatusChange_broadcast_noop adminTwoState bIssue "Resolved" rfl

/-- Claim C2: evaluation at the failing input. An absent snapshot loads as
the empty collection, but a present snapshot that JSON.parse rejects makes
the load effect throw (there is no try/catch at App.jsx lines 14-18), so
load does not return the empty sequence on corrupt data. -/
theorem load_corrupt_propagates :
    load Snapshot.corrupt = Except.error "SyntaxError: Unexpected token in JSON" ∧
    load Snapshot.absent = Except.ok ([] : List Issue) :=
  ⟨rfl, rfl⟩

/-- Claim C4: persistence round-trip. Loading the snapshot written by save
yields the original collection, order and field values preserved. -/
theorem load_save (C : List Issue) : load (save C) = Except.ok C := by
  have h : decodeIssues (encodeIssues C) = C := by
    show (C.map encodeIssue).map decodeIssue = C
    rw [List.map_map]
    have hio : decodeIssue ∘ encodeIssue = id := funext fun i => decodeIssue_encodeIssue i
    rw [hio, List.map_id]
  show Except.ok (decodeIssues (encodeIssues C)) = Except.ok C
  rw [h]

/-- Claim C3 counterexample: the core operations do not guard blank input.
`addIssue` with a blank title grows the collection, `postUpdate` with blank
text grows the collection, and `addComment` with blank text mutates the
target issue. -/
theorem blank_input_core_not_noop :
    (addIssue "Citizen" 0 "t" "" "x" "General" []).length = 1 ∧
    (postUpdate 0 "t" "" "General" []).length = 1 ∧
    addComment "Citizen" 0 "t" "1" "" [bIssue] ≠ [bIssue] := by
  decide

/-- Claim C3 (amended): the blank-input guard lives in the UI form
handlers, not the core: IssueForm.submit, the IssueDetail comment form
handler, and Broadcast.send each return without invoking the core when the
required text is blank after trimming, leaving the collection unchanged;
the core addIssue, addComment, postUpdate perform no such guard. -/
theorem blank_guard_in_forms (role currentRole : String) (now : Nat)
    (createdAt atStr title description category text msg bcat : String)
    (issue : Issue) (C : List Issue) :
    ((jsTrim title = "" ∨ jsTrim description = "") →
      submitIssueForm role now createdAt title description category C = C) ∧
    (jsTrim text = "" → commentFormSubmit role now atStr issue text C = C) ∧
    (jsTrim msg = "" → broadcastSend currentRole now createdAt msg bcat C = C) := by
  refine ⟨?_, ?_, ?_⟩
  · intro h
    unfold submitIssueForm
    rcases h with h | h <;> simp [h]
  · intro h
    unfold commentFormSubmit
    simp [h]
  · intro h
    unfold broadcastSend
    by_cases hr : (currentRole == "Politician") = true <;> simp [hr, h]

/-- Claim C3 witness: concrete blank submissions through each form
handler leave a concrete collection unchanged. -/
theorem blank_guard_in_forms_w :
    submitIssueForm "Citizen" 3 "t" "" "desc" "General" [issueA] = [issueA] ∧
    commentFormSubmit "Citizen" 3 "T" issueA "   " [issueA] = [issueA] ∧
    broadcastSend "Politician" 3 "t" "" "Water" [issueA] = [issueA] :=
  have h := blank_guard_in_forms "Citizen" "Politician" 3 "t" "T" "" "desc" "General"
    "   " "" "Water" issueA [issueA]
  ⟨h.1 (Or.inl (by decide)), h.2.1 (by decide), h.2.2 (by decide)⟩

/-- Claim C5 counterexample: the deny notification produced for a Citizen
delete request is a fixed string that does not name the current role. -/
theorem deleteIssue_deny_omits_role :
    (deleteIssue "1" citizenState).modalMessage = some deleteDenyMessage ∧
    (deleteIssue "1" citizenState).issues = citizenState.issues ∧
    strMentions deleteDenyMessage "Citizen" = false := by
  decide

/-- Claim C5 (amended): deleteIssue is Admin-gated. For every role other
than Admin the collection (and selection) is unchanged and the deny modal
message is produced; that message names the attempted action (delete) but
not the current role. For Admin the entry with the matching id is removed,
a no-op when the id is absent. -/
theorem deleteIssue_admin_gate (s : AppState) (issueId : String) :
    (s.role ≠ "Admin" →
      (deleteIssue issueId s).issues = s.issues ∧
      (deleteIssue issueId s).selected = s.selected ∧
      (deleteIssue issueId s).modalMessage = some deleteDenyMessage) ∧
    strMentions deleteDenyMessage "delete" = true ∧
    (s.role = "Admin" →
      (deleteIssue issueId s).issues = s.issues.filter (fun it => !(it.id == issueId)) ∧
      ((∀ it ∈ s.issues, it.id ≠ issueId) → (deleteIssue issueId s).issues = s.issues)) := by
  refine ⟨?_, by decide, ?_⟩
  · intro h
    have hb : (s.role == "Admin") = false := beq_eq_false_iff_ne.mpr h
    unfold deleteIssue
    simp [hb]
  · intro h
    have hb : (s.role == "Admin") = true := beq_iff_eq.mpr h
    constructor
    · unfold deleteIssue
      simp [hb]
    · intro habs
      unfold deleteIssue
      simp [hb]
      exact habs

/-- Claim C5 witness: a Citizen delete leaves a concrete state unchanged
with the deny modal set, and an Admin delete filters the matching id. -/
theorem deleteIssue_admin_gate_w :
    ((deleteIssue "1" citizenState).issues = citizenState.issues ∧
     (deleteIssue "1" citizenState).selected = citizenState.selected ∧
     (deleteIssue "1" citizenState).modalMessage = some deleteDenyMessage) ∧
    (deleteIssue "2" adminTwoState).issues
      = adminTwoState.issues.filter (fun it => !(it.id == "2")) :=
  have h1 := deleteIssue_admin_gate citizenState "1"
  have h2 := deleteIssue_admin_gate adminTwoState "2"
  ⟨h1.1 (by decide), (h2.2.2 rfl).1⟩

/-- Claim C6 counterexample: with issue "1" selected, an Admin delete of
the other issue "2" clears the selection even though the selected issue
still exists in the collection. -/
theorem delete_other_clears_selection :
    adminTwoState.selected = some issueA ∧
    (deleteIssue "2" adminTwoState).issues = [issueA] ∧
    (deleteIssue "2" adminTwoState).selected = none := by
  decide

/-- Claim C6 (amended): after the create, comment and status mutations the
reconciliation effect resolves the tracked selection to the latest
snapshot of the selected id (clearing it exactly when the id no longer
resolves); deleteIssue instead always clears the selection when the Admin
gate passes, even when the deleted id differs from the selected one, and
leaves the selection unchanged when the gate denies. -/
theorem selection_resolution (s : AppState) (sel : Issue) (now : Nat)
    (createdAt atStr title description category cid text sid st did : String)
    (hsel : s.selected = some sel) :
    (appAddIssue now createdAt title description category s).selected
      = (appAddIssue now createdAt title description category s).issues.find?
          (fun i => i.id == sel.id) ∧
    (appAddComment now atStr cid text s).selected
      = (appAddComment now atStr cid text s).issues.find? (fun i => i.id == sel.id) ∧
    (appChangeStatus sid st s).selected
      = (appChangeStatus sid st s).issues.find? (fun i => i.id == sel.id) ∧
    (s.role = "Admin" → (deleteIssue did s).selected = none) ∧
    (s.role ≠ "Admin" → (deleteIssue did s).selected = s.selected) := by
  have key : ∀ issues : List Issue,
      reconcileSelected issues (some sel) = issues.find? (fun i => i.id == sel.id) := by
    intro issues
    unfold reconcileSelected
    cases hf : issues.find? (fun i => i.id == sel.id) <;> simp [hf]
  refine ⟨?_, ?_, ?_, ?_, ?_⟩
  · show reconcileSelected (addIssue s.role now createdAt title description category s.issues)
        s.selected
      = (addIssue s.role now createdAt title description category s.issues).find?
          (fun i => i.id == sel.id)
    rw [hsel, key]
  · show reconcileSelected (addComment s.role now atStr cid text s.issues) s.selected
      = (addComment s.role now atStr cid text s.issues).find? (fun i => i.id == sel.id)
    rw [hsel, key]
  · show reconcileSelected (changeStatus sid st s.issues) s.selected
      = (changeStatus sid st s.issues).find? (fun i => i.id == sel.id)
    rw [hsel, key]
  · intro h
    have hb : (s.role == "Admin") = true := beq_iff_eq.mpr h
    unfold deleteIssue
    simp [hb, reconcileSelected]
  · intro h
    have hb : (s.role == "Admin") = false := beq_eq_false_iff_ne.mpr h
    unfold deleteIssue
    simp [hb]

/-- Claim C6 witness: on a concrete Admin state with issue "1" selected,
a comment mutation resolves the selection through find?, and the delete
clears it. -/
theorem selection_resolution_w :
    ((appAddComment 9 "T9" "1" "hello" adminTwoState).selected
      = (appAddComment 9 "T9" "1" "hello" adminTwoState).issues.find?
          (fun i => i.id == issueA.id)) ∧
    (deleteIssue "2" adminTwoState).selected = none :=
  have h := selection_resolution adminTwoState issueA 9 "t9" "T9" "ti" "de" "General"
    "1" "hello" "1" "Open" "2" rfl
  ⟨h.2.1, h.2.2.2.1 rfl⟩

/-- No-op helper: a conditional per-element rewrite whose condition is
false everywhere leaves the list unchanged. -/
theorem map_ite_id (f : Issue → Issue) (q : Issue → Bool) (C : List Issue)
    (h : ∀ it ∈ C, q it = false) :
    C.map (fun it => if q it then f it else it) = C := by
  induction C with
  | nil => rfl
  | cons a t ih =>
    have ha : q a = false := h a (by simp)
    have ht : ∀ it ∈ t, q it = false := fun it hit => h it (by simp [hit])
    simp [ha, ih ht]

/-- Claim C7 counterexample: the id assigned by `addIssue` is the clock
value, which can coincide with an id already in the collection — created
at clock tick 5 into a collection holding id "5", the new issue reuses a
previously present id. -/
theorem addIssue_duplicate_id :
    (addIssue "Citizen" 5 "t1" "Pothole" "Large pothole" "Roads" [collide5]).map Issue.id
      = ["5", "5"] ∧
    "5" ∈ [collide5].map Issue.id := by
  decide

/-- Claim C7 (amended): for every valid (non-blank after trim) title and
description, addIssue prepends a new issue with status "Open", empty
comments, createdAt set at creation and id the clock value; the id is not
previously present provided the clock value differs from every id already
in the collection (same-tick collisions do occur, see counterexample). -/
theorem addIssue_creates (role : String) (now : Nat)
    (createdAt title description category : String) (C : List Issue)
    (htitle : jsTrim title ≠ "") (hdesc : jsTrim description ≠ "")
    (hfresh : ∀ it ∈ C, it.id ≠ toString now) :
    addIssue role now createdAt title description category C
      = { id := toString now, title := title, description := description,
          category := category, status := "Open", comments := [],
          createdAt := createdAt, reporterRole := role } :: C ∧
    toString now ∉ C.map Issue.id := by
  refine ⟨rfl, ?_⟩
  intro hmem
  obtain ⟨it, hit, hid⟩ := List.mem_map.mp hmem
  exact hfresh it hit hid

/-- Claim C7 witness: a concrete valid creation at a fresh clock tick. -/
theorem addIssue_creates_w :
    addIssue "Citizen" 7 "t7" "Pothole" "Large pothole on 5th" "Roads" [collide5]
      = { id := toString 7, title := "Pothole", description := "Large pothole on 5th",
          category := "Roads", status := "Open", comments := [],
          createdAt := "t7", reporterRole := "Citizen" } :: [collide5] ∧
    toString 7 ∉ [collide5].map Issue.id :=
  addIssue_creates "Citizen" 7 "t7" "Pothole" "Large pothole on 5th" "Roads" [collide5]
    (by decide) (by decide) (by decide)

/-- Claim C8: NotFound is a no-op. When no issue in the collection carries
the requested id, addComment and changeStatus return the collection
unchanged, and deleteIssue leaves the issues of the state unchanged. -/
theorem notFound_noop (role : String) (now : Nat) (atStr issueId text st : String)
    (C : List Issue) (s : AppState)
    (habs : ∀ it ∈ C, it.id ≠ issueId) (habs2 : ∀ it ∈ s.issues, it.id ≠ issueId) :
    addComment role now atStr issueId text C = C ∧
    changeStatus issueId st C = C ∧
    (deleteIssue issueId s).issues = s.issues := by
  have hb : ∀ it ∈ C, (it.id == issueId) = false :=
    fun it hit => beq_eq_false_iff_ne.mpr (habs it hit)
  refine ⟨map_ite_id _ _ C hb, map_ite_id _ _ C hb, ?_⟩
  unfold deleteIssue
  cases hr : (s.role == "Admin") with
  | false => simp [hr]
  | true =>
    simp [hr]
    exact habs2

/-- Claim C8 witness: a concrete absent id "99" leaves a concrete
collection and state unchanged under all three operations. -/
theorem notFound_noop_w :
    addComment "Citizen" 3 "T" "99" "hi" [bIssue] = [bIssue] ∧
    changeStatus "99" "Resolved" [bIssue] = [bIssue] ∧
    (deleteIssue "99" adminTwoState).issues = adminTwoState.issues :=
  notFound_noop "Citizen" 3 "T" "99" "hi" "Resolved" [bIssue] adminTwoState
    (by decide) (by decide)

/-- Claim C9: the recent feed returns at most `limit` entries, every entry
has status "Update" or "Open", and the entries keep the relative order of
the collection (the result is a sublist of it). -/
theorem recentFeed_spec (C : List Issue) (limit : Nat) :
    (recentFeed C limit).length ≤ limit ∧
    (∀ u ∈ recentFeed C limit, u.status = "Update" ∨ u.status = "Open") ∧
    (recentFeed C limit).Sublist C := by
  refine ⟨List.length_take_le _ _, ?_, ?_⟩
  · intro u hu
    have hmem : u ∈ C.filter (fun i => i.status == "Update" || i.status == "Open") :=
      List.take_subset _ _ hu
    simpa using (List.mem_filter.mp hmem).2
  · exact (List.take_sublist _ _).trans (List.filter_sublist _)

/-- Claim C9 witness: a concrete feed of limit 1 over a broadcast and an
open report. -/
theorem recentFeed_spec_w :
    (recentFeed [bIssue, collide5] 1).length ≤ 1 ∧
    (bIssue.status = "Update" ∨ bIssue.status = "Open") ∧
    (recentFeed [bIssue, collide5] 1).Sublist [bIssue, collide5] :=
  have h := recentFeed_spec [bIssue, collide5] 1
  ⟨h.1, h.2.1 bIssue (by decide), h.2.2⟩

/-- Frame helper: mapping a per-issue rewrite that preserves a field
preserves that field across the collection. -/
theorem map_field_eq {α : Type} (g : Issue → Issue) (fld : Issue → α)
    (hg : ∀ a, fld (g a) = fld a) (C : List Issue) :
    (C.map g).map fld = C.map fld := by
  rw [List.map_map]
  exact List.map_congr_left fun a _ => hg a

/-- Claim C10: frame invariant of addComment and changeStatus. Both
preserve the number of issues, the id sequence, and (respectively) the
status sequence and the comments sequence; every position whose issue does
not carry the given id is left entirely unchanged, and the position that
does changes only in its comments (respectively status) field. -/
theorem comment_status_frame (role : String) (now : Nat)
    (atStr issueId text st : String) (C : List Issue) :
    (addComment role now atStr issueId text C).length = C.length ∧
    (changeStatus issueId st C).length = C.length ∧
    (addComment role now atStr issueId text C).map Issue.id = C.map Issue.id ∧
    (changeStatus issueId st C).map Issue.id = C.map Issue.id ∧
    (addComment role now atStr issueId text C).map Issue.status = C.map Issue.status ∧
    (changeStatus issueId st C).map Issue.comments = C.map Issue.comments ∧
    (∀ n : Nat, ∀ it : Issue, C[n]? = some it → (it.id == issueId) = false →
      (addComment role now atStr issueId text C)[n]? = some it ∧
      (changeStatus issueId st C)[n]? = some it) ∧
    (∀ n : Nat, ∀ it : Issue, C[n]? = some it → (it.id == issueId) = true →
      (addComment role now atStr issueId text C)[n]?
        = some { it with comments := it.comments ++
            [{ id := toString now, role := role, text := text, «at» := atStr }] } ∧
      (changeStatus issueId st C)[n]? = some { it with status := st }) := by
  refine ⟨by simp [addComment], by simp [changeStatus], ?_, ?_, ?_, ?_, ?_, ?_⟩
  · exact map_field_eq _ Issue.id
      (fun a => by by_cases hc : (a.id == issueId) = true <;> simp [hc]) C
  · exact map_field_eq _ Issue.id
      (fun a => by by_cases hc : (a.id == issueId) = true <;> simp [hc]) C
  · exact map_field_eq _ Issue.status
      (fun a => by by_cases hc : (a.id == issueId) = true <;> simp [hc]) C
  · exact map_field_eq _ Issue.comments
      (fun a => by by_cases hc : (a.id == issueId) = true <;> simp [hc]) C
  · intro n it hn hfalse
    constructor
    · show (C.map _)[n]? = some it
      rw [List.getElem?_map, hn]
      show some (if it.id == issueId then _ else it) = some it
      rw [hfalse]
      rfl
    · show (C.map _)[n]? = some it
      rw [List.getElem?_map, hn]
      show some (if it.id == issueId then _ else it) = some it
      rw [hfalse]
      rfl
  · intro n it hn htrue
    constructor
    · show (C.map _)[n]? = _
      rw [List.getElem?_map, hn]
      show some (if it.id == issueId then _ else it) = _
      rw [htrue]
      rfl
    · show (C.map _)[n]? = _
      rw [List.getElem?_map, hn]
      show some (if it.id == issueId then _ else it) = _
      rw [htrue]
      rfl

/-- Claim C10 witness: on a concrete two-issue collection, commenting on
id "1" rewrites position 0 only in its comments field and leaves position
1 untouched, and a status change preserves all comment lists. -/
theorem comment_status_frame_w :
    (addComment "Moderator" 7 "T7" "1" "hello" [issueA, issueB])[1]? = some issueB ∧
    (addComment "Moderator" 7 "T7" "1" "hello" [issueA, issueB])[0]?
      = some { issueA with comments := issueA.comments ++
          [{ id := toString 7, role := "Moderator", text := "hello", «at» := "T7" }] } ∧
    (changeStatus "1" "Resolved" [issueA, issueB]).map Issue.comments
      = [issueA, issueB].map Issue.comments :=
  have h := comment_status_frame "Moderator" 7 "T7" "1" "hello" "Resolved" [issueA, issueB]
  ⟨(h.2.2.2.2.2.2.1 1 issueB (by decide) (by decide)).1,
   (h.2.2.2.2.2.2.2 0 issueA (by decide) (by decide)).1,
   h.2.2.2.2.2.1⟩
